import Mathlib

/-!
Verification of the `py_stream_zip` ZIP-archive parser.

The development shallowly embeds the parsing pipeline of the package:
byte-buffer readers (`utils.py`), the DOS timestamp decoder, the entry
model (`zip_entry.py`), the EOCD record decoder (`central_directory.py`)
and the archive scanner (`stream_zip.py`).  Byte buffers are `List Nat`
(one element per byte), Python slices become clamped `drop`/`take`,
raising becomes `Except ZipError`, and attribute mutation becomes
explicit state passing on the `ZipEntry` structure.
-/

namespace PyStreamZip

/-! ## Byte-buffer readers (`utils.py`) -/

/-- Byte at index `i` of a buffer (Python indexing inside a checked range;
callers establish the bounds the Python code checks or guarantees). -/
def byteAt (b : List Nat) (i : Nat) : Nat := b.getD i 0

/-- `utils.read_uint32_le`: 32-bit little-endian read. -/
def read_uint32_le (b : List Nat) (o : Nat) : Nat :=
  byteAt b o + 256 * byteAt b (o + 1) + 256 ^ 2 * byteAt b (o + 2) + 256 ^ 3 * byteAt b (o + 3)

/-- `utils.read_uint64_le`: 64-bit little-endian read. -/
def read_uint64_le (b : List Nat) (o : Nat) : Nat :=
  byteAt b o + 256 * byteAt b (o + 1) + 256 ^ 2 * byteAt b (o + 2) + 256 ^ 3 * byteAt b (o + 3) +
    256 ^ 4 * byteAt b (o + 4) + 256 ^ 5 * byteAt b (o + 5) + 256 ^ 6 * byteAt b (o + 6) +
    256 ^ 7 * byteAt b (o + 7)

/-- `struct.unpack_from("<H", data, o)`: 16-bit little-endian read. -/
def read_uint16_le (b : List Nat) (o : Nat) : Nat :=
  byteAt b o + 256 * byteAt b (o + 1)

/-- Python slice `b[start : start + len]` (clamped at the end of the buffer). -/
def slice (b : List Nat) (start len : Nat) : List Nat := (b.drop start).take len

/-! ## DOS timestamp decoding (`utils.parse_zip_time`) -/

/-- Calendar timestamp produced by `parse_zip_time`. -/
structure DateTime where
  year : Nat
  month : Nat
  day : Nat
  hour : Nat
  minute : Nat
  second : Nat
deriving Repr, DecidableEq

/-- Gregorian month length, as `datetime.datetime` validates it. -/
def daysInMonth (y m : Nat) : Nat :=
  if m = 2 then (if (y % 4 = 0 ∧ y % 100 ≠ 0) ∨ y % 400 = 0 then 29 else 28)
  else if m = 4 ∨ m = 6 ∨ m = 9 ∨ m = 11 then 30 else 31

/-- Validity check performed by the `datetime.datetime` constructor on the
fields `parse_zip_time` produces (year is always in `datetime` range here). -/
def validCivil (y mo d hh mi ss : Nat) : Bool :=
  1 ≤ mo && mo ≤ 12 && 1 ≤ d && d ≤ daysInMonth y mo && hh ≤ 23 && mi ≤ 59 && ss ≤ 59

/-- The epoch sentinel returned for invalid dates. -/
def epochDateTime : DateTime := ⟨1970, 1, 1, 0, 0, 0⟩

/-- `utils.parse_zip_time`: split the two 16-bit DOS words into calendar
fields (MSB-first bit ranges) and fall back to the epoch on invalid dates. -/
def parse_zip_time (t d : Nat) : DateTime :=
  let hh := t / 2048
  let mi := t / 32 % 64
  let ss := t % 32 * 2
  let y := d / 512 + 1980
  let mo := d / 32 % 16
  let da := d % 32
  if validCivil y mo da hh mi ss then ⟨y, mo, da, hh, mi, ss⟩ else epochDateTime

/-! ## Constants (`constants.py`) -/

def LOCHDR : Nat := 30
def LOCSIG : Nat := 0x04034B50
def CENHDR : Nat := 46
def CENSIG : Nat := 0x02014B50
def ENDHDR : Nat := 22
def ENDSIG : Nat := 0x06054B50
def MAXFILECOMMENT : Nat := 0xFFFF
def STORED : Nat := 0
def DEFLATED : Nat := 8
def EF_ZIP64_OR_32 : Nat := 0xFFFFFFFF
def EF_ZIP64_OR_16 : Nat := 0xFFFF
def ID_ZIP64 : Nat := 0x0001
def ID_UNICODE_PATH : Nat := 0x7075

/-! ## Error taxonomy: one constructor per distinct `raise` site. -/

inductive ZipError where
  | invalidEntryHeader      -- "Invalid entry header" (ZipEntry.read_header)
  | invalidLocalHeader      -- "Invalid local header" (ZipEntry.read_data_header)
  | localStructError        -- struct.error on a short local header
  | eocdNotFound            -- "End of central directory signature not found"
  | invalidCDHeader         -- "Invalid central directory header"
  | zip64NotImplemented     -- "ZIP64 format not implemented in this version"
  | incompleteEntry         -- "Incomplete central directory entry"
  | corruptedEntry          -- "Corrupted central directory entry"
  | localHeaderMismatch     -- "Local header signature mismatch" (open_entry)
  | shortRead               -- struct.error reading the signature of a short header
  | isDirectory             -- "Entry is a directory"
  | sizeMismatch            -- "Invalid uncompressed data size"
  | crcMismatch             -- "CRC check failed"
  | unsupportedMethod (m : Nat)  -- "Compression method ... not supported"
  | inflateError            -- zlib.decompress failure
  | maliciousEntry          -- "Malicious entry" (ZipEntry.validate_name)
deriving Repr, DecidableEq

/-! ## Entry model (`zip_entry.py`) -/

/-- The attribute set of `ZipEntry`.  `name` and `comment` keep the raw bytes
(Python decodes them with a replacement policy, an injective-enough external
primitive for the properties below). -/
structure ZipEntry where
  ver_made : Nat
  version : Nat
  flags : Nat
  method : Nat
  time : DateTime
  crc : Nat
  compressed_size : Nat
  size : Nat
  fname_len : Nat
  extra_len : Nat
  com_len : Nat
  disk_start : Nat
  inattr : Nat
  attr : Nat
  offset : Nat
  name : List Nat
  is_directory : Bool
  comment : Option (List Nat)
deriving Repr, DecidableEq

/-- `ZipEntry.__init__`: the freshly constructed entry. -/
def ZipEntry.empty : ZipEntry :=
  ⟨0, 0, 0, 0, epochDateTime, 0, 0, 0, 0, 0, 0, 0, 0, 0, 0, [], false, none⟩

/-- `ZipEntry.parse_zip64_extra`: conditional, order-dependent ZIP64 reads.
Each step carries the entry together with the running cursor. -/
def ZipEntry.parse_zip64_extra (e : ZipEntry) (data : List Nat) : ZipEntry :=
  let p1 : ZipEntry × Nat :=
    if 8 ≤ data.length ∧ e.size = EF_ZIP64_OR_32 then
      ({ e with size := read_uint64_le data 0 }, 8)
    else (e, 0)
  let p2 : ZipEntry × Nat :=
    if p1.2 + 8 ≤ data.length ∧ p1.1.compressed_size = EF_ZIP64_OR_32 then
      ({ p1.1 with compressed_size := read_uint64_le data p1.2 }, p1.2 + 8)
    else p1
  let p3 : ZipEntry × Nat :=
    if p2.2 + 8 ≤ data.length ∧ p2.1.offset = EF_ZIP64_OR_32 then
      ({ p2.1 with offset := read_uint64_le data p2.2 }, p2.2 + 8)
    else p2
  if p3.2 + 4 ≤ data.length ∧ p3.1.disk_start = EF_ZIP64_OR_16 then
    { p3.1 with disk_start := read_uint32_le data p3.2 }
  else p3.1

/-- Cursor position after the uncompressed-size step of `parse_zip64_extra`. -/
def z64Cursor1 (e : ZipEntry) (data : List Nat) : Nat :=
  if 8 ≤ data.length ∧ e.size = EF_ZIP64_OR_32 then 8 else 0

/-- Cursor position after the compressed-size step of `parse_zip64_extra`. -/
def z64Cursor2 (e : ZipEntry) (data : List Nat) : Nat :=
  z64Cursor1 e data +
    (if z64Cursor1 e data + 8 ≤ data.length ∧ e.compressed_size = EF_ZIP64_OR_32 then 8 else 0)

/-- Cursor position after the local-header-offset step of `parse_zip64_extra`. -/
def z64Cursor3 (e : ZipEntry) (data : List Nat) : Nat :=
  z64Cursor2 e data +
    (if z64Cursor2 e data + 8 ≤ data.length ∧ e.offset = EF_ZIP64_OR_32 then 8 else 0)

/-- C1.  ZIP64 extra parsing: each of size, compressed size, local-header
offset and disk start is overwritten exactly when its current value is the
placeholder and the block still has enough bytes at the running cursor; the
cursor starts at 0 and advances (8,8,8 bytes) only when the corresponding
guard holds; a field whose value is not the placeholder is left unchanged,
and every other attribute of the entry is untouched. -/
theorem parse_zip64_extra_characterization (e : ZipEntry) (data : List Nat) :
    ((e.parse_zip64_extra data).size =
      if 8 ≤ data.length ∧ e.size = EF_ZIP64_OR_32 then read_uint64_le data 0 else e.size)
    ∧ ((e.parse_zip64_extra data).compressed_size =
      if z64Cursor1 e data + 8 ≤ data.length ∧ e.compressed_size = EF_ZIP64_OR_32 then
        read_uint64_le data (z64Cursor1 e data) else e.compressed_size)
    ∧ ((e.parse_zip64_extra data).offset =
      if z64Cursor2 e data + 8 ≤ data.length ∧ e.offset = EF_ZIP64_OR_32 then
        read_uint64_le data (z64Cursor2 e data) else e.offset)
    ∧ ((e.parse_zip64_extra data).disk_start =
      if z64Cursor3 e data + 4 ≤ data.length ∧ e.disk_start = EF_ZIP64_OR_16 then
        read_uint32_le data (z64Cursor3 e data) else e.disk_start)
    ∧ (e.parse_zip64_extra data).ver_made = e.ver_made
    ∧ (e.parse_zip64_extra data).version = e.version
    ∧ (e.parse_zip64_extra data).flags = e.flags
    ∧ (e.parse_zip64_extra data).method = e.method
    ∧ (e.parse_zip64_extra data).time = e.time
    ∧ (e.parse_zip64_extra data).crc = e.crc
    ∧ (e.parse_zip64_extra data).fname_len = e.fname_len
    ∧ (e.parse_zip64_extra data).extra_len = e.extra_len
    ∧ (e.parse_zip64_extra data).com_len = e.com_len
    ∧ (e.parse_zip64_extra data).inattr = e.inattr
    ∧ (e.parse_zip64_extra data).attr = e.attr
    ∧ (e.parse_zip64_extra data).name = e.name
    ∧ (e.parse_zip64_extra data).is_directory = e.is_directory
    ∧ (e.parse_zip64_extra data).comment = e.comment := by
  simp only [ZipEntry.parse_zip64_extra, z64Cursor1, z64Cursor2, z64Cursor3]
  split_ifs <;> simp_all

/-- `ZipEntry.parse_unicode_filename`: override the name from a Unicode-path
sub-record (skip 1 version byte and 4 name-CRC bytes). -/
def ZipEntry.parse_unicode_filename (e : ZipEntry) (data : List Nat) : ZipEntry :=
  if data.length < 5 then e else { e with name := data.drop 5 }

/-- Dispatch of one extra-field sub-record by id inside `read_extra`. -/
def ZipEntry.handle_extra_record (e : ZipEntry) (sig : Nat) (block : List Nat) : ZipEntry :=
  if sig = ID_ZIP64 then e.parse_zip64_extra block
  else if sig = ID_UNICODE_PATH then e.parse_unicode_filename block
  else e

/-- The `while` loop of `ZipEntry.read_extra`, from cursor `o`. -/
def ZipEntry.read_extra_loop (e : ZipEntry) (data : List Nat) (o : Nat) : ZipEntry :=
  if h : o < data.length then
    if o + 4 > data.length then e
    else
      ZipEntry.read_extra_loop
        (e.handle_extra_record (read_uint16_le data o)
          (slice data (o + 4) (read_uint16_le data (o + 2))))
        data (o + 4 + read_uint16_le data (o + 2))
  else e
termination_by data.length - o
decreasing_by omega

/-- `ZipEntry.read_extra`: iterate the sub-record loop over the extra block. -/
def ZipEntry.read_extra (e : ZipEntry) (data : List Nat) : ZipEntry :=
  e.read_extra_loop data 0

/-- `ZipEntry.read_header`: decode the 46-byte central-directory record at
`offset`, after the length/signature check. -/
def ZipEntry.read_header (e : ZipEntry) (data : List Nat) (offset : Nat) :
    Except ZipError ZipEntry :=
  if data.length < offset + CENHDR ∨ read_uint32_le data offset ≠ CENSIG then
    .error .invalidEntryHeader
  else .ok { e with
    ver_made := read_uint16_le data (offset + 4)
    version := read_uint16_le data (offset + 6)
    flags := read_uint16_le data (offset + 8)
    method := read_uint16_le data (offset + 10)
    time := parse_zip_time (read_uint16_le data (offset + 12)) (read_uint16_le data (offset + 14))
    crc := read_uint32_le data (offset + 16)
    compressed_size := read_uint32_le data (offset + 20)
    size := read_uint32_le data (offset + 24)
    fname_len := read_uint16_le data (offset + 28)
    extra_len := read_uint16_le data (offset + 30)
    com_len := read_uint16_le data (offset + 32)
    disk_start := read_uint16_le data (offset + 34)
    inattr := read_uint16_le data (offset + 36)
    attr := read_uint32_le data (offset + 38)
    offset := read_uint32_le data (offset + 42) }

/-- `ZipEntry.read`: decode the variable-length trailer (name, extra block,
comment) that follows the fixed header. -/
def ZipEntry.read (e : ZipEntry) (data : List Nat) (offset : Nat) : ZipEntry :=
  let name_data := slice data offset e.fname_len
  let isDir :=
    if name_data.getLast? = some 47 ∨ name_data.getLast? = some 92 then true else e.is_directory
  let e1 : ZipEntry := { e with name := name_data, is_directory := isDir }
  let e2 := if e.extra_len ≠ 0 then e1.read_extra (slice data (offset + e.fname_len) e.extra_len)
            else e1
  { e2 with
    comment :=
      if e.com_len ≠ 0 then some (slice data (offset + e.fname_len + e.extra_len) e.com_len)
      else none }

/-- C7.  The extra-field loop: a sub-record with an unknown id is skipped by
advancing the cursor past its declared length and leaving the entry alone;
a sub-record whose declared length overruns the block is the last one
processed — the loop dispatches it on the clamped block and then stops —
and the loop never fails (it is a total function into `ZipEntry`). -/
theorem read_extra_loop_skips_and_stops (e : ZipEntry) (data : List Nat) (o : Nat)
    (hfit : o + 4 ≤ data.length) :
    (read_uint16_le data o ≠ ID_ZIP64 → read_uint16_le data o ≠ ID_UNICODE_PATH →
      ZipEntry.read_extra_loop e data o =
        ZipEntry.read_extra_loop e data (o + 4 + read_uint16_le data (o + 2)))
    ∧ (data.length < o + 4 + read_uint16_le data (o + 2) →
      ZipEntry.read_extra_loop e data o =
        e.handle_extra_record (read_uint16_le data o)
          (slice data (o + 4) (read_uint16_le data (o + 2)))) := by
  have hlt : o < data.length := by omega
  have hno : ¬ (o + 4 > data.length) := by omega
  constructor
  · intro h1 h2
    rw [ZipEntry.read_extra_loop]
    simp [hlt, hno, ZipEntry.handle_extra_record, h1, h2]
  · intro hover
    rw [ZipEntry.read_extra_loop]
    simp only [dif_pos hlt, if_neg hno]
    rw [ZipEntry.read_extra_loop]
    simp only [dif_neg (by omega : ¬ (o + 4 + read_uint16_le data (o + 2) < data.length))]

/-- Witness for C7 at a concrete block: an unknown id `0x9999` of declared
length 2 inside a 6-byte block is skipped to cursor 6 (past its payload). -/
theorem read_extra_loop_skips_witness :
    ZipEntry.read_extra_loop ZipEntry.empty [0x99, 0x99, 2, 0, 1, 2] 0 =
      ZipEntry.read_extra_loop ZipEntry.empty [0x99, 0x99, 2, 0, 1, 2] 6 := by
  have h := read_extra_loop_skips_and_stops ZipEntry.empty [0x99, 0x99, 2, 0, 1, 2] 0
    (by decide)
  have h1 := h.1 (by decide) (by decide)
  simpa [read_uint16_le, byteAt] using h1

/-- `ZipEntry.read_data_header`: decode the 30-byte local file header,
keeping the central-directory CRC when the local CRC is zero and the
central-directory sizes when the local value is zero or the ZIP64
placeholder.  A buffer too short for a field read fails like the
`struct.error` Python raises there. -/
def ZipEntry.read_data_header (e : ZipEntry) (data : List Nat) : Except ZipError ZipEntry :=
  if data.length < 4 then .error .localStructError
  else if read_uint32_le data 0 ≠ LOCSIG then .error .invalidLocalHeader
  else if data.length < LOCHDR then .error .localStructError
  else .ok { e with
    version := read_uint16_le data 4
    flags := read_uint16_le data 6
    method := read_uint16_le data 8
    time := parse_zip_time (read_uint16_le data 10) (read_uint16_le data 12)
    crc := if read_uint32_le data 14 ≠ 0 then read_uint32_le data 14 else e.crc
    compressed_size :=
      if read_uint32_le data 18 ≠ 0 ∧ read_uint32_le data 18 ≠ EF_ZIP64_OR_32 then
        read_uint32_le data 18
      else e.compressed_size
    size :=
      if read_uint32_le data 22 ≠ 0 ∧ read_uint32_le data 22 ≠ EF_ZIP64_OR_32 then
        read_uint32_le data 22
      else e.size
    fname_len := read_uint16_le data 26
    extra_len := read_uint16_le data 28 }

/-- C6.  Local-header overrides: on a successful `read_data_header`, the CRC
is overwritten exactly when the local CRC field is nonzero, and each size is
overwritten exactly when its local value is nonzero and not the 32-bit ZIP64
placeholder; otherwise the stored central-directory value is kept. -/
theorem read_data_header_nonzero_heuristic (e e' : ZipEntry) (data : List Nat)
    (h : e.read_data_header data = .ok e') :
    (read_uint32_le data 14 = 0 → e'.crc = e.crc)
    ∧ (read_uint32_le data 14 ≠ 0 → e'.crc = read_uint32_le data 14)
    ∧ (read_uint32_le data 18 = 0 ∨ read_uint32_le data 18 = EF_ZIP64_OR_32 →
        e'.compressed_size = e.compressed_size)
    ∧ (read_uint32_le data 18 ≠ 0 → read_uint32_le data 18 ≠ EF_ZIP64_OR_32 →
        e'.compressed_size = read_uint32_le data 18)
    ∧ (read_uint32_le data 22 = 0 ∨ read_uint32_le data 22 = EF_ZIP64_OR_32 →
        e'.size = e.size)
    ∧ (read_uint32_le data 22 ≠ 0 → read_uint32_le data 22 ≠ EF_ZIP64_OR_32 →
        e'.size = read_uint32_le data 22) := by
  unfold ZipEntry.read_data_header at h
  split_ifs at h <;> cases h <;> simp_all <;> tauto

/-- Concrete input for the C6 witness: prior central-directory values
`crc = 5`, `compressed_size = 9`, `size = 11`. -/
def c6entry : ZipEntry := { ZipEntry.empty with crc := 5, compressed_size := 9, size := 11 }

/-- Concrete 30-byte local header for the C6 witness: zero CRC, placeholder
compressed size, uncompressed size 7. -/
def c6local : List Nat :=
  [0x50, 0x4B, 0x03, 0x04, 20, 0, 0, 0, 0, 0, 0, 0, 0, 0,
   0, 0, 0, 0, 255, 255, 255, 255, 7, 0, 0, 0, 0, 0, 0, 0]

/-- The entry produced by `read_data_header` on the C6 witness input. -/
def c6out : ZipEntry := (c6entry.read_data_header c6local).toOption.getD ZipEntry.empty

/-- Witness for C6: a zero local CRC keeps 5, a placeholder local compressed
size keeps 9, and a nonzero non-placeholder local size overwrites 11 with 7. -/
theorem read_data_header_nonzero_heuristic_witness :
    c6out.crc = 5 ∧ c6out.compressed_size = 9 ∧ c6out.size = 7 := by
  have h := read_data_header_nonzero_heuristic c6entry c6out c6local (by rfl)
  refine ⟨h.1 (by decide), h.2.2.1 (Or.inr (by decide)), ?_⟩
  have := h.2.2.2.2.2 (by decide) (by decide)
  simpa [read_uint32_le, byteAt, c6local] using this

/-! ## EOCD record (`central_directory.py`) and backward scan (`stream_zip.py`) -/

/-- The EOCD record fields (`CentralDirectoryHeader`). -/
structure CentralDirectoryHeader where
  volume_entries : Nat
  total_entries : Nat
  size : Nat
  offset : Nat
  comment_length : Nat
deriving Repr, DecidableEq

/-- `CentralDirectoryHeader.read`: decode the fixed 22-byte EOCD record.
The slice must be exactly 22 bytes and start with the END signature. -/
def CentralDirectoryHeader.read (data : List Nat) :
    Except ZipError CentralDirectoryHeader :=
  if data.length ≠ ENDHDR ∨ read_uint32_le data 0 ≠ ENDSIG then .error .invalidCDHeader
  else .ok ⟨read_uint16_le data 8, read_uint16_le data 10, read_uint32_le data 12,
    read_uint32_le data 16, read_uint16_le data 20⟩

/-- The EOCD signature as little-endian bytes (`ENDSIG.to_bytes(4, "little")`). -/
def eocdSigBytes : List Nat := [0x50, 0x4B, 0x05, 0x06]

/-- The 4 signature bytes occur in `data` starting at index `i`. -/
def sigAt (data : List Nat) (i : Nat) : Bool := decide (slice data i 4 = eocdSigBytes)

/-- Backward scan for the signature below index `n` (`bytes.rfind`). -/
def rfindAux (data : List Nat) : Nat → Option Nat
  | 0 => none
  | n + 1 => if sigAt data n then some n else rfindAux data n

/-- `data.rfind(signature)`: index of the rightmost occurrence, if any. -/
def rfindEocd (data : List Nat) : Option Nat := rfindAux data data.length

/-- The trailing window the scanner reads:
`min(ENDHDR + MAXFILECOMMENT, file_size)` bytes at the end of the file. -/
def eocdWindow (file : List Nat) : List Nat :=
  file.drop (file.length - min (ENDHDR + MAXFILECOMMENT) file.length)

/-- The tail of `_read_central_directory` from a found signature position:
decode the fixed EOCD record, attach the comment, reject ZIP64 sentinels. -/
def eocdParseAt (data : List Nat) (pos : Nat) :
    Except ZipError (CentralDirectoryHeader × Option (List Nat)) :=
  match CentralDirectoryHeader.read (slice data pos ENDHDR) with
  | .error err => .error err
  | .ok h =>
    if h.volume_entries = EF_ZIP64_OR_16 ∨ h.total_entries = EF_ZIP64_OR_16 ∨
        h.size = EF_ZIP64_OR_32 ∨ h.offset = EF_ZIP64_OR_32 then
      .error .zip64NotImplemented
    else
      .ok (h, if h.comment_length ≠ 0 then some (slice data (pos + ENDHDR) h.comment_length)
              else none)

/-- `StreamZip._read_central_directory` over the raw file bytes. -/
def read_central_directory (file : List Nat) :
    Except ZipError (CentralDirectoryHeader × Option (List Nat)) :=
  match rfindEocd (eocdWindow file) with
  | none => .error .eocdNotFound
  | some pos => eocdParseAt (eocdWindow file) pos

lemma rfindAux_eq_none (data : List Nat) (n : Nat) (h : rfindAux data n = none) :
    ∀ q, q < n → sigAt data q = false := by
  induction n with
  | zero => intro q hq; omega
  | succ m ih =>
    intro q hq
    unfold rfindAux at h
    by_cases hs : sigAt data m
    · simp [hs] at h
    · rcases Nat.lt_succ_iff_lt_or_eq.mp hq with hlt | rfl
      · exact ih (by simpa [hs] using h) q hlt
      · simpa using hs

lemma rfindAux_eq_some (data : List Nat) (n p : Nat) (h : rfindAux data n = some p) :
    p < n ∧ sigAt data p = true ∧ ∀ q, p < q → q < n → sigAt data q = false := by
  induction n with
  | zero => simp [rfindAux] at h
  | succ m ih =>
    unfold rfindAux at h
    by_cases hs : sigAt data m
    · simp [hs] at h
      subst h
      exact ⟨Nat.lt_succ_self _, hs, fun q h1 h2 => by omega⟩
    · have h' := ih (by simpa [hs] using h)
      refine ⟨by omega, h'.2.1, ?_⟩
      intro q h1 h2
      rcases Nat.lt_succ_iff_lt_or_eq.mp h2 with hlt | rfl
      · exact h'.2.2 q h1 hlt
      · simpa using hs

lemma sigAt_lt_length (data : List Nat) (i : Nat) (h : sigAt data i = true) :
    i < data.length := by
  have hlen : (slice data i 4).length = 4 := by
    have := of_decide_eq_true h
    rw [this]; rfl
  simp [slice] at hlen
  omega

/-- C3.  EOCD discovery: the scanner reads a trailing window of exactly
`min(22 + 65535, file_size)` bytes; if the signature occurs nowhere in that
window the open fails with the EOCD-not-found error, and otherwise the
position used to parse the EOCD record is an occurrence of the signature
that no other occurrence exceeds (the rightmost one). -/
theorem read_central_directory_backward_scan (file : List Nat) :
    (eocdWindow file).length = min (ENDHDR + MAXFILECOMMENT) file.length
    ∧ ((∀ i, i < (eocdWindow file).length → sigAt (eocdWindow file) i = false) →
        read_central_directory file = .error .eocdNotFound)
    ∧ (∀ p, rfindEocd (eocdWindow file) = some p →
        sigAt (eocdWindow file) p = true
        ∧ (∀ q, sigAt (eocdWindow file) q = true → q ≤ p)
        ∧ read_central_directory file = eocdParseAt (eocdWindow file) p) := by
  refine ⟨?_, ?_, ?_⟩
  · simp [eocdWindow]
    omega
  · intro hnone
    rcases hr : rfindEocd (eocdWindow file) with _ | p
    · simp [read_central_directory, hr]
    · have h := rfindAux_eq_some _ _ _ hr
      have := hnone p h.1
      rw [h.2.1] at this
      cases this
  · intro p hp
    have h := rfindAux_eq_some _ _ _ hp
    refine ⟨h.2.1, ?_, by simp [read_central_directory, hp]⟩
    intro q hq
    by_contra hgt
    have hqlt : q < (eocdWindow file).length := sigAt_lt_length _ _ hq
    have := h.2.2 q (by omega) hqlt
    rw [hq] at this
    cases this

/-- A 22-byte all-default EOCD record (no entries, no comment). -/
def fileC3 : List Nat :=
  [0x50, 0x4B, 0x05, 0x06, 0, 0, 0, 0, 0, 0, 0, 0, 0, 0, 0, 0, 0, 0, 0, 0, 0, 0]

/-- Witness for C3: a signature-free file fails with EOCD-not-found, and on a
minimal valid archive the scan parses from the rightmost occurrence (0). -/
theorem read_central_directory_backward_scan_witness :
    read_central_directory [1, 2, 3] = .error .eocdNotFound
    ∧ read_central_directory fileC3 = eocdParseAt (eocdWindow fileC3) 0 := by
  refine ⟨(read_central_directory_backward_scan [1, 2, 3]).2.1 (by decide), ?_⟩
  exact ((read_central_directory_backward_scan fileC3).2.2 0 (by decide)).2.2

/-- C4.  ZIP64 sentinels in the EOCD: whenever the parsed EOCD record has a
placeholder volume-entry count, total-entry count, directory size or
directory offset, the open fails with the ZIP64-unsupported error (no header
and no index is returned; the ZIP64 locator chain is never consulted). -/
theorem read_central_directory_zip64_rejected (file : List Nat)
    (h : CentralDirectoryHeader) (p : Nat)
    (hp : rfindEocd (eocdWindow file) = some p)
    (hread : CentralDirectoryHeader.read (slice (eocdWindow file) p ENDHDR) = .ok h)
    (hsent : h.volume_entries = EF_ZIP64_OR_16 ∨ h.total_entries = EF_ZIP64_OR_16 ∨
      h.size = EF_ZIP64_OR_32 ∨ h.offset = EF_ZIP64_OR_32) :
    read_central_directory file = .error .zip64NotImplemented := by
  simp [read_central_directory, hp, eocdParseAt, hread, hsent]

/-- A 22-byte EOCD whose volume-entry count is the 16-bit placeholder. -/
def fileC4 : List Nat :=
  [0x50, 0x4B, 0x05, 0x06, 0, 0, 0, 0, 255, 255, 0, 0, 0, 0, 0, 0, 0, 0, 0, 0, 0, 0]

/-- Witness for C4 at a concrete archive with `volume_entries = 0xFFFF`. -/
theorem read_central_directory_zip64_rejected_witness :
    read_central_directory fileC4 = .error .zip64NotImplemented := by
  exact read_central_directory_zip64_rejected fileC4 ⟨0xFFFF, 0, 0, 0, 0⟩ 0
    (by decide) (by rfl) (Or.inl rfl)

/-- A valid comment-bearing EOCD record followed by a 10-byte comment whose
bytes spell the EOCD signature again 10 bytes before the end of the file. -/
def fileC10 : List Nat :=
  [0x50, 0x4B, 0x05, 0x06, 0, 0, 0, 0, 0, 0, 0, 0, 0, 0, 0, 0, 0, 0, 0, 0, 10, 0,
   0x50, 0x4B, 0x05, 0x06, 0, 0, 0, 0, 0, 0]

/-- C10.  A spurious signature embedded in the archive comment fewer than 22
bytes before the end of the window shadows the earlier complete EOCD record:
the scan takes the rightmost occurrence (position 22), the clamped 10-byte
slice fails the fixed-size check, and the open fails with the
invalid-header error even though position 0 parses as a valid EOCD record. -/
theorem spurious_tail_signature_shadows_valid_eocd :
    CentralDirectoryHeader.read (slice fileC10 0 ENDHDR) = .ok ⟨0, 0, 0, 0, 10⟩
    ∧ rfindEocd (eocdWindow fileC10) = some 22
    ∧ (eocdWindow fileC10).length < 22 + ENDHDR
    ∧ read_central_directory fileC10 = .error .invalidCDHeader := by
  refine ⟨by rfl, by decide, by decide, by rfl⟩

/-! ## Entry resolution and payload reading (`stream_zip.py`) -/

/-- The 30 bytes `open_entry` reads at the entry's local-header offset. -/
def localHeaderBytes (file : List Nat) (e : ZipEntry) : List Nat :=
  slice file e.offset LOCHDR

/-- `StreamZip.open_entry` on an already-parsed entry: reject directories,
read and validate the 30-byte local header, apply the local-header
overrides, and return the updated entry with its data offset computed from
the local header's name and extra lengths. -/
def StreamZip.open_entry (file : List Nat) (e : ZipEntry) :
    Except ZipError (ZipEntry × Nat) :=
  if e.is_directory then .error .isDirectory
  else if (localHeaderBytes file e).length < 4 then .error .shortRead
  else if read_uint32_le (localHeaderBytes file e) 0 ≠ LOCSIG then .error .localHeaderMismatch
  else
    match e.read_data_header (localHeaderBytes file e) with
    | .error err => .error err
    | .ok e' => .ok (e', e.offset + LOCHDR + e'.fname_len + e'.extra_len)

lemma read_data_header_ok_eq (e e' : ZipEntry) (data : List Nat)
    (h : e.read_data_header data = .ok e') :
    e' = { e with
      version := read_uint16_le data 4
      flags := read_uint16_le data 6
      method := read_uint16_le data 8
      time := parse_zip_time (read_uint16_le data 10) (read_uint16_le data 12)
      crc := if read_uint32_le data 14 ≠ 0 then read_uint32_le data 14 else e.crc
      compressed_size :=
        if read_uint32_le data 18 ≠ 0 ∧ read_uint32_le data 18 ≠ EF_ZIP64_OR_32 then
          read_uint32_le data 18
        else e.compressed_size
      size :=
        if read_uint32_le data 22 ≠ 0 ∧ read_uint32_le data 22 ≠ EF_ZIP64_OR_32 then
          read_uint32_le data 22
        else e.size
      fname_len := read_uint16_le data 26
      extra_len := read_uint16_le data 28 } := by
  unfold ZipEntry.read_data_header at h
  split_ifs at h <;> cases h <;> simp_all <;> split_ifs <;> tauto

/-- C9.  A successful `open_entry` returns the entry with version, flags,
method, timestamp, name length and extra length replaced by the local-header
values, CRC and the two sizes replaced under the nonzero/non-placeholder
heuristic, and name, comment, internal and external attributes, disk start,
local-header offset (and version-made-by, comment length, directory flag)
unchanged; all later metadata reads observe this updated entry, whose data
offset uses the local lengths. -/
theorem open_entry_local_header_overwrite (file : List Nat) (e e' : ZipEntry) (off : Nat)
    (h : StreamZip.open_entry file e = .ok (e', off)) :
    e'.version = read_uint16_le (localHeaderBytes file e) 4
    ∧ e'.flags = read_uint16_le (localHeaderBytes file e) 6
    ∧ e'.method = read_uint16_le (localHeaderBytes file e) 8
    ∧ e'.time = parse_zip_time (read_uint16_le (localHeaderBytes file e) 10)
        (read_uint16_le (localHeaderBytes file e) 12)
    ∧ e'.fname_len = read_uint16_le (localHeaderBytes file e) 26
    ∧ e'.extra_len = read_uint16_le (localHeaderBytes file e) 28
    ∧ e'.crc = (if read_uint32_le (localHeaderBytes file e) 14 ≠ 0 then
        read_uint32_le (localHeaderBytes file e) 14 else e.crc)
    ∧ e'.compressed_size = (if read_uint32_le (localHeaderBytes file e) 18 ≠ 0 ∧
          read_uint32_le (localHeaderBytes file e) 18 ≠ EF_ZIP64_OR_32 then
        read_uint32_le (localHeaderBytes file e) 18 else e.compressed_size)
    ∧ e'.size = (if read_uint32_le (localHeaderBytes file e) 22 ≠ 0 ∧
          read_uint32_le (localHeaderBytes file e) 22 ≠ EF_ZIP64_OR_32 then
        read_uint32_le (localHeaderBytes file e) 22 else e.size)
    ∧ e'.name = e.name
    ∧ e'.comment = e.comment
    ∧ e'.inattr = e.inattr
    ∧ e'.attr = e.attr
    ∧ e'.disk_start = e.disk_start
    ∧ e'.offset = e.offset
    ∧ e'.ver_made = e.ver_made
    ∧ e'.com_len = e.com_len
    ∧ e'.is_directory = e.is_directory
    ∧ off = e.offset + LOCHDR + e'.fname_len + e'.extra_len := by
  unfold StreamZip.open_entry at h
  split_ifs at h
  rcases hm : e.read_data_header (localHeaderBytes file e) with err | e'' <;> rw [hm] at h
  · cases h
  · rw [Except.ok.injEq, Prod.mk.injEq] at h
    obtain ⟨he, hoff⟩ := h
    subst he
    subst hoff
    have hrec := read_data_header_ok_eq _ _ _ hm
    subst hrec
    exact ⟨rfl, rfl, rfl, rfl, rfl, rfl, rfl, rfl, rfl, rfl, rfl, rfl, rfl, rfl, rfl, rfl,
      rfl, rfl, rfl⟩

/-- Concrete entry for the C9 witness, with distinctive central-directory
metadata and local-header offset 0. -/
def c9entry : ZipEntry :=
  { ZipEntry.empty with
    ver_made := 20
    crc := 5
    compressed_size := 9
    size := 11
    inattr := 3
    attr := 4
    com_len := 1
    name := [97]
    comment := some [99] }

/-- Result pair of `open_entry` on the C9 witness input (the file is the
30-byte local header `c6local`). -/
def c9pair : ZipEntry × Nat :=
  (StreamZip.open_entry c6local c9entry).toOption.getD (ZipEntry.empty, 0)

/-- Witness for C9: name, comment, attributes and offset survive
`open_entry`, while flags and sizes come from the local header. -/
theorem open_entry_local_header_overwrite_witness :
    (c9pair.1).name = [97] ∧ (c9pair.1).comment = some [99] ∧ (c9pair.1).inattr = 3
    ∧ (c9pair.1).crc = 5 ∧ (c9pair.1).compressed_size = 9 ∧ (c9pair.1).size = 7
    ∧ c9pair.2 = 30 := by
  have h := open_entry_local_header_overwrite c6local c9entry c9pair.1 c9pair.2 (by rfl)
  obtain ⟨-, -, -, -, hn, he, hc, hcs, hs, hname, hcom, hin, -, -, hoff, -, -, -, hdo⟩ := h
  refine ⟨hname.trans (by decide), hcom.trans (by decide), hin.trans (by decide),
    ?_, ?_, ?_, ?_⟩
  · rw [hc]; decide
  · rw [hcs]; decide
  · rw [hs]; decide
  · rw [hdo, hn, he]; decide

/-- The decompression step of `entry_data_sync`: stored data passes through,
deflated data goes to the external inflate primitive, anything else is an
unsupported method. -/
def decompressStage (e' : ZipEntry) (data : List Nat)
    (inflate : List Nat → Except ZipError (List Nat)) : Except ZipError (List Nat) :=
  if e'.method = STORED then .ok data
  else if e'.method = DEFLATED then inflate data
  else .error (.unsupportedMethod e'.method)

/-- `StreamZip.entry_data_sync`, parameterized by the external zlib
primitives: raw-deflate decompression and CRC-32. -/
def StreamZip.entry_data_sync (file : List Nat) (e : ZipEntry)
    (inflate : List Nat → Except ZipError (List Nat)) (crc32 : List Nat → Nat) :
    Except ZipError (List Nat) :=
  match StreamZip.open_entry file e with
  | .error err => .error err
  | .ok (e', data_offset) =>
    match decompressStage e' (slice file data_offset e'.compressed_size) inflate with
    | .error err => .error err
    | .ok result =>
      if result.length ≠ e'.size then .error .sizeMismatch
      else if e'.flags &&& 0x8 ≠ 0x8 then
        if crc32 result &&& 0xFFFFFFFF ≠ e'.crc then .error .crcMismatch else .ok result
      else .ok result

/-- C5.  CRC gating in `entry_data_sync`: once the entry is opened, the
payload decompressed and its length checked, the CRC-32 of the payload is
compared against the entry's recorded CRC exactly when general-purpose flag
bit 3 is clear — mismatch fails with the CRC error — and when bit 3 is set
the payload is returned with no CRC comparison at all. -/
theorem entry_data_sync_crc_gating (file : List Nat) (e e' : ZipEntry) (off : Nat)
    (inflate : List Nat → Except ZipError (List Nat)) (crc32 : List Nat → Nat)
    (payload : List Nat)
    (hopen : StreamZip.open_entry file e = .ok (e', off))
    (hdec : decompressStage e' (slice file off e'.compressed_size) inflate = .ok payload)
    (hlen : payload.length = e'.size) :
    (e'.flags &&& 0x8 ≠ 0x8 →
      StreamZip.entry_data_sync file e inflate crc32 =
        (if crc32 payload &&& 0xFFFFFFFF ≠ e'.crc then .error .crcMismatch else .ok payload))
    ∧ (e'.flags &&& 0x8 = 0x8 →
      StreamZip.entry_data_sync file e inflate crc32 = .ok payload) := by
  unfold StreamZip.entry_data_sync
  rw [hopen]
  dsimp only
  rw [hdec]
  dsimp only
  rw [if_neg (by simp [hlen])]
  constructor
  · intro hbit
    rw [if_pos hbit]
  · intro hbit
    rw [if_neg (by simp [hbit])]

/-- A complete one-entry payload file for the C5 witness: a stored local
header (CRC 42, sizes 5, flags 0) followed by the 5 payload bytes. -/
def c5file : List Nat :=
  [0x50, 0x4B, 0x03, 0x04, 20, 0, 0, 0, 0, 0, 0, 0, 0, 0,
   42, 0, 0, 0, 5, 0, 0, 0, 5, 0, 0, 0, 0, 0, 0, 0,
   104, 101, 108, 108, 111]

/-- The opened-entry pair for the C5 witness. -/
def c5pair : ZipEntry × Nat :=
  (StreamZip.open_entry c5file ZipEntry.empty).toOption.getD (ZipEntry.empty, 0)

/-- An external CRC-32 stub agreeing with the recorded CRC of `c5file`. -/
def c5crc : List Nat → Nat := fun _ => 42

/-- An inflate stub (never reached: the witness entry is stored). -/
def c5inflate : List Nat → Except ZipError (List Nat) := fun _ => .error .inflateError

/-- Witness for C5: on the stored entry of `c5file` with flag bit 3 clear
and a matching CRC, `entry_data_sync` returns the raw payload. -/
theorem entry_data_sync_crc_gating_witness :
    StreamZip.entry_data_sync c5file ZipEntry.empty c5inflate c5crc =
      .ok [104, 101, 108, 108, 111] := by
  have h := entry_data_sync_crc_gating c5file ZipEntry.empty c5pair.1 c5pair.2
    c5inflate c5crc (slice c5file c5pair.2 (c5pair.1).compressed_size)
    (by rfl) (by rfl) (by decide)
  have h1 := h.1 (by decide)
  rw [h1]
  rfl

/-! ## Eager and lazy directory loading (`StreamZip._read_entries`) -/

/-- Eager branch of `_read_entries`: per entry, decode the fixed header,
check that the variable trailer fits, decode it, and advance the cursor by
`46 + name_len + extra_len + comment_len`. -/
def read_entries_eager (cd : List Nat) : Nat → Nat → Except ZipError (List ZipEntry)
  | 0, _ => .ok []
  | n + 1, pos =>
    if cd.length < pos + CENHDR then .error .incompleteEntry
    else
      (ZipEntry.empty.read_header cd pos).bind fun e =>
        if cd.length < pos + CENHDR + (e.fname_len + e.extra_len + e.com_len) then
          .error .corruptedEntry
        else
          (read_entries_eager cd n (pos + CENHDR + (e.fname_len + e.extra_len + e.com_len))).bind
            fun rest => .ok (e.read cd (pos + CENHDR) :: rest)

/-- A lazily loaded entry: the fixed-header fields plus the byte offset of
its still-unparsed variable trailer inside the central-directory block. -/
structure LazyEntry where
  entry : ZipEntry
  variable_offset : Nat
deriving Repr, DecidableEq

/-- Lazy branch of `_read_entries`: per entry, decode the fixed header and
only the name (for indexing), record the trailer offset, and advance the
cursor the same way as the eager branch. -/
def read_entries_lazy (cd : List Nat) : Nat → Nat → Except ZipError (List LazyEntry)
  | 0, _ => .ok []
  | n + 1, pos =>
    if cd.length < pos + CENHDR then .error .incompleteEntry
    else
      (ZipEntry.empty.read_header cd pos).bind fun e =>
        (read_entries_lazy cd n (pos + CENHDR + (e.fname_len + e.extra_len + e.com_len))).bind
          fun rest =>
            .ok (⟨{ e with name := slice cd (pos + CENHDR) e.fname_len }, pos + CENHDR⟩ :: rest)

/-- Modelled from the spec: `ZipEntry.ensure_parsed` — invoked by
`open_entry` on a lazily loaded entry (`stream_zip.py` line 198) but absent
from the sources — decodes the deferred variable-length trailer.  Per §4.4
of the design, a lazy entry retains the raw central-directory block and the
byte range of its unparsed trailer, and its first access through
`open_entry` "parses its trailer now", i.e. runs the standard trailer
decoder `ZipEntry.read` at the recorded variable offset. -/
def ensure_parsed (cd : List Nat) (le : LazyEntry) : ZipEntry :=
  le.entry.read cd le.variable_offset

lemma read_ignores_prior_name (e : ZipEntry) (x : List Nat) (cd : List Nat) (o : Nat) :
    ZipEntry.read { e with name := x } cd o = ZipEntry.read e cd o := rfl

/-- C2.  Lazy/eager agreement: whenever both loading modes succeed on the
same central-directory block and entry count, the eager entries coincide —
as whole records, hence in every metadata field — with the lazy entries
after their deferred trailer parse (the parse `open_entry` triggers on
first access); the two modes differ only in when the trailer is decoded. -/
theorem read_entries_eager_lazy_agree (cd : List Nat) (count : Nat) :
    ∀ pos l1 l2, read_entries_eager cd count pos = .ok l1 →
      read_entries_lazy cd count pos = .ok l2 →
      l1 = l2.map (ensure_parsed cd) := by
  induction count with
  | zero =>
    intro pos l1 l2 h1 h2
    unfold read_entries_eager at h1
    unfold read_entries_lazy at h2
    cases h1; cases h2; rfl
  | succ n ih =>
    intro pos l1 l2 h1 h2
    unfold read_entries_eager at h1
    unfold read_entries_lazy at h2
    by_cases hlen : cd.length < pos + CENHDR
    · rw [if_pos hlen] at h1
      cases h1
    · rw [if_neg hlen] at h1
      rw [if_neg hlen] at h2
      rcases hh : ZipEntry.empty.read_header cd pos with err | e <;> rw [hh] at h1 h2 <;>
        simp only [Except.bind] at h1 h2
      · cases h1
      · by_cases hvar : cd.length < pos + CENHDR + (e.fname_len + e.extra_len + e.com_len)
        · rw [if_pos hvar] at h1
          cases h1
        · rw [if_neg hvar] at h1
          rcases hr1 : read_entries_eager cd n
              (pos + CENHDR + (e.fname_len + e.extra_len + e.com_len)) with err1 | rest1 <;>
            rw [hr1] at h1 <;> simp only [Except.bind] at h1
          · cases h1
          · rcases hr2 : read_entries_lazy cd n
                (pos + CENHDR + (e.fname_len + e.extra_len + e.com_len)) with err2 | rest2 <;>
              rw [hr2] at h2 <;> simp only [Except.bind] at h2
            · cases h2
            · cases h1
              cases h2
              simp only [List.map_cons, ensure_parsed, read_ignores_prior_name]
              exact congrArg (List.cons _) (ih _ _ _ hr1 hr2)

/-- A one-entry central directory block for the C2 witness: a 46-byte fixed
header (stored entry, CRC 42, sizes 5, name length 1) followed by the
single-byte name. -/
def c2cd : List Nat :=
  [0x50, 0x4B, 0x01, 0x02, 20, 0, 20, 0, 0, 0, 0, 0, 0, 0, 0, 0,
   42, 0, 0, 0, 5, 0, 0, 0, 5, 0, 0, 0, 1, 0, 0, 0, 0, 0, 0, 0,
   0, 0, 0, 0, 0, 0, 0, 0, 0, 0, 97]

/-- Witness for C2 on `c2cd` with one entry: both loads succeed and the
eager result equals the lazily loaded result after `ensure_parsed`. -/
theorem read_entries_eager_lazy_agree_witness :
    (read_entries_eager c2cd 1 0).toOption.getD [] =
      ((read_entries_lazy c2cd 1 0).toOption.getD []).map (ensure_parsed c2cd) := by
  exact read_entries_eager_lazy_agree c2cd 1 0
    ((read_entries_eager c2cd 1 0).toOption.getD [])
    ((read_entries_lazy c2cd 1 0).toOption.getD []) (by rfl) (by rfl)

/-! ## Name validation (`ZipEntry.validate_name`)

The source checks `re.search(r"\\|^\w+:|^\/|(^|\/)\.\.(\/|$)", name)`.  The
four alternatives are transcribed positionally over the character list: a
backslash anywhere, a nonempty run of word characters from the start
followed by a colon, a leading slash, and a `..` bounded by start-or-slash
on the left and slash-or-end on the right.

On a `str` with default flags the class `\w` is Unicode-aware: it holds the
alphanumerics of every script plus the underscore.  The Unicode character
tables of the host regex engine are an external primitive of the runtime
(like the codec and CRC primitives), so the class membership test is a
parameter `w : Char → Bool` of the model, and every statement about the
drive-letter alternative is proved for an arbitrary class; instantiating
`w` with the engine's table yields the program's behavior exactly. -/

end PyStreamZip
